import Mathlib

/-!
AWS VPC operator: the reconciler of `controller/awsvpc_controller.go`.

A shallow embedding of `createVPC`, `updateVPC`, `deleteVPCAndResources` and
`Reconcile`, with the EC2 service and the Kubernetes client taken as arbitrary
deterministic transition systems.  Every EC2 call is appended to a call log, so
that the order of the cloud calls of a pass can be stated.

Conventions.
* A Go `error` is a `GoError`; `nil` is `none` / `Except.ok`.
* The `*string` fields of an SDK output of a successful call are taken to be
  non-nil; the slice index `Vpcs[0]` / `Subnets[0]` is modelled, and an empty
  slice is the run-time panic `Result.panic`.
* `ctrl.Result` is always the zero value in the source and is left out.
-/

namespace AwsVpcOperator

/-! ## Data model (`api/v1/awsvpc_types.go`) -/

/-- Go `error` value: `Error()` gives `msg`; `notFound` is what
`apierrors.IsNotFound` answers for it. -/
structure GoError where
  msg : String
  notFound : Bool
deriving DecidableEq, Repr

/-- Method `err.Error()`. -/
def GoError.Error (e : GoError) : String := e.msg

/-- Type `AWSVPCSpec`. -/
structure AWSVPCSpec where
  Region : String
  CIDRBlock : String
  Name : String
  SubnetCIDR : String
deriving DecidableEq, Repr

/-- Type `AWSVPCStatus`. -/
structure AWSVPCStatus where
  VPCID : String
  SubnetID : String
  Status : String
  ErrorMessage : String
deriving DecidableEq, Repr

/-- Type `AWSVPC` (the metadata fields play no part in the controller). -/
structure AWSVPC where
  Spec : AWSVPCSpec
  Status : AWSVPCStatus
deriving DecidableEq, Repr

/-! ## The EC2 service -/

/-- One EC2 API call with the arguments the controller passes. -/
inductive Call where
  | CreateVpc (cidrBlock : String)
  | CreateTags (resource key value : String)
  | CreateSubnet (vpcId cidrBlock : String)
  | DescribeVpcs (vpcId : String)
  | DescribeSubnets (subnetId : String)
  | DeleteSubnet (subnetId : String)
  | DeleteVpc (vpcId : String)
deriving DecidableEq, Repr

/-- The calls that create or delete a resource. -/
def Call.createsOrDeletes : Call → Bool
  | Call.CreateVpc _ => true
  | Call.CreateSubnet _ _ => true
  | Call.DeleteSubnet _ => true
  | Call.DeleteVpc _ => true
  | _ => false

/-- The calls that change the cloud: everything but the two describes. -/
def Call.mutating : Call → Bool
  | Call.DescribeVpcs _ => false
  | Call.DescribeSubnets _ => false
  | _ => true

/-- Is the call a `CreateVpc`? -/
def Call.isCreateVpc : Call → Bool
  | Call.CreateVpc _ => true
  | _ => false

/-- Is the call a `DeleteVpc`? -/
def Call.isDeleteVpc : Call → Bool
  | Call.DeleteVpc _ => true
  | _ => false

/-- Is the call a `CreateVpc` or a `CreateSubnet`? -/
def Call.isCreate : Call → Bool
  | Call.CreateVpc _ => true
  | Call.CreateSubnet _ _ => true
  | _ => false

/-- The `*ec2.EC2` client over a cloud with states `σ`.  Each operation maps the
cloud state and the arguments to the returned value and the next cloud state.
`CreateVpc` and `CreateSubnet` return the new resource id, the describes the
`CidrBlock`s of the returned `Vpcs` / `Subnets` slice. -/
structure EC2 (σ : Type) where
  CreateVpc : σ → String → Except GoError String × σ
  CreateTags : σ → String → String → String → Option GoError × σ
  CreateSubnet : σ → String → String → Except GoError String × σ
  DescribeVpcs : σ → String → Except GoError (List String) × σ
  DescribeSubnets : σ → String → Except GoError (List String) × σ
  DeleteSubnet : σ → String → Option GoError × σ
  DeleteVpc : σ → String → Option GoError × σ

/-- What a controller function hands back: `(ctrl.Result{}, nil)`,
`(ctrl.Result{}, err)`, or a run-time panic (index out of range). -/
inductive Result where
  | ok
  | err (e : GoError)
  | panic
deriving DecidableEq, Repr

/-- The state a pass runs in: the cloud, the log of EC2 calls issued so far
(oldest first) and the in-memory `*AWSVPC` object the functions mutate. -/
structure World (σ : Type) where
  cloud : σ
  calls : List Call
  awsvpc : AWSVPC

/-- Record an EC2 call and the cloud state it left. -/
def World.call {σ : Type} (w : World σ) (c : Call) (cloud' : σ) : World σ :=
  { w with cloud := cloud', calls := w.calls ++ [c] }

/-- Assign to `awsvpc.Status`. -/
def World.setStatus {σ : Type} (w : World σ) (st : AWSVPCStatus) : World σ :=
  { w with awsvpc := { w.awsvpc with Status := st } }

/-! ## The controller (`controller/awsvpc_controller.go`) -/

/-- Function `createVPC` (lines 78-118). -/
def createVPC {σ : Type} (svc : EC2 σ) (w : World σ) : Result × World σ :=
  match svc.CreateVpc w.cloud w.awsvpc.Spec.CIDRBlock with
  | (Except.error err, c1) =>
    let w1 := w.call (Call.CreateVpc w.awsvpc.Spec.CIDRBlock) c1
    (Result.err err,
      w1.setStatus { w1.awsvpc.Status with Status := "Error", ErrorMessage := err.Error })
  | (Except.ok vpcId, c1) =>
    let w1 := w.call (Call.CreateVpc w.awsvpc.Spec.CIDRBlock) c1
    let w2 := w1.setStatus { w1.awsvpc.Status with VPCID := vpcId, Status := "Created" }
    match svc.CreateTags w2.cloud vpcId "Name" w2.awsvpc.Spec.Name with
    | (some err, c2) =>
      (Result.err err, w2.call (Call.CreateTags vpcId "Name" w2.awsvpc.Spec.Name) c2)
    | (none, c2) =>
      let w3 := w2.call (Call.CreateTags vpcId "Name" w2.awsvpc.Spec.Name) c2
      match svc.CreateSubnet w3.cloud vpcId w3.awsvpc.Spec.SubnetCIDR with
      | (Except.error err, c3) =>
        (Result.err err, w3.call (Call.CreateSubnet vpcId w3.awsvpc.Spec.SubnetCIDR) c3)
      | (Except.ok subnetId, c3) =>
        let w4 := w3.call (Call.CreateSubnet vpcId w3.awsvpc.Spec.SubnetCIDR) c3
        (Result.ok, w4.setStatus { w4.awsvpc.Status with SubnetID := subnetId })

/-- Function `deleteVPCAndResources` (lines 190-212); `none` is a `nil` error. -/
def deleteVPCAndResources {σ : Type} (svc : EC2 σ) (w : World σ) :
    Option GoError × World σ :=
  match svc.DeleteSubnet w.cloud w.awsvpc.Status.SubnetID with
  | (some err, c1) => (some err, w.call (Call.DeleteSubnet w.awsvpc.Status.SubnetID) c1)
  | (none, c1) =>
    let w1 := w.call (Call.DeleteSubnet w.awsvpc.Status.SubnetID) c1
    match svc.DeleteVpc w1.cloud w1.awsvpc.Status.VPCID with
    | (some err, c2) => (some err, w1.call (Call.DeleteVpc w1.awsvpc.Status.VPCID) c2)
    | (none, c2) =>
      let w2 := w1.call (Call.DeleteVpc w1.awsvpc.Status.VPCID) c2
      (none,
        w2.setStatus { w2.awsvpc.Status with VPCID := "", SubnetID := "", Status := "Deleted" })

/-- Function `updateVPC` (lines 120-188). -/
def updateVPC {σ : Type} (svc : EC2 σ) (w : World σ) : Result × World σ :=
  match svc.DescribeVpcs w.cloud w.awsvpc.Status.VPCID with
  | (Except.error err, c1) =>
    (Result.err err, w.call (Call.DescribeVpcs w.awsvpc.Status.VPCID) c1)
  | (Except.ok [], c1) =>
    (Result.panic, w.call (Call.DescribeVpcs w.awsvpc.Status.VPCID) c1)
  | (Except.ok (vpcCidr :: _), c1) =>
    let w1 := w.call (Call.DescribeVpcs w.awsvpc.Status.VPCID) c1
    if vpcCidr ≠ w1.awsvpc.Spec.CIDRBlock then
      match deleteVPCAndResources svc w1 with
      | (some err, w2) => (Result.err err, w2)
      | (none, w2) => createVPC svc w2
    else
      match svc.CreateTags w1.cloud w1.awsvpc.Status.VPCID "Name" w1.awsvpc.Spec.Name with
      | (some err, c2) =>
        (Result.err err,
          w1.call (Call.CreateTags w1.awsvpc.Status.VPCID "Name" w1.awsvpc.Spec.Name) c2)
      | (none, c2) =>
        let w2 := w1.call (Call.CreateTags w1.awsvpc.Status.VPCID "Name" w1.awsvpc.Spec.Name) c2
        match svc.DescribeSubnets w2.cloud w2.awsvpc.Status.SubnetID with
        | (Except.error err, c3) =>
          (Result.err err, w2.call (Call.DescribeSubnets w2.awsvpc.Status.SubnetID) c3)
        | (Except.ok [], c3) =>
          (Result.panic, w2.call (Call.DescribeSubnets w2.awsvpc.Status.SubnetID) c3)
        | (Except.ok (subnetCidr :: _), c3) =>
          let w3 := w2.call (Call.DescribeSubnets w2.awsvpc.Status.SubnetID) c3
          if subnetCidr ≠ w3.awsvpc.Spec.SubnetCIDR then
            match svc.DeleteSubnet w3.cloud w3.awsvpc.Status.SubnetID with
            | (some err, c4) =>
              (Result.err err, w3.call (Call.DeleteSubnet w3.awsvpc.Status.SubnetID) c4)
            | (none, c4) =>
              let w4 := w3.call (Call.DeleteSubnet w3.awsvpc.Status.SubnetID) c4
              match svc.CreateSubnet w4.cloud w4.awsvpc.Status.VPCID w4.awsvpc.Spec.SubnetCIDR with
              | (Except.error err, c5) =>
                (Result.err err,
                  w4.call (Call.CreateSubnet w4.awsvpc.Status.VPCID w4.awsvpc.Spec.SubnetCIDR) c5)
              | (Except.ok subnetId, c5) =>
                let w5 :=
                  w4.call (Call.CreateSubnet w4.awsvpc.Status.VPCID w4.awsvpc.Spec.SubnetCIDR) c5
                let w6 := w5.setStatus { w5.awsvpc.Status with SubnetID := subnetId }
                (Result.ok, w6.setStatus { w6.awsvpc.Status with Status := "Updated" })
          else
            (Result.ok, w3.setStatus { w3.awsvpc.Status with Status := "Updated" })

/-- The branch of `Reconcile` on `awsvpc.Status.VPCID` (lines 56-68): one pass of
the create path or of the update path. -/
def reconcilePass {σ : Type} (svc : EC2 σ) (w : World σ) : Result × World σ :=
  if w.awsvpc.Status.VPCID = "" then createVPC svc w else updateVPC svc w

/-- The Kubernetes client and the AWS session factory `Reconcile` uses, over a
store with states `κ`: `Get` reads the object of the request, `StatusUpdate` is
`r.Status().Update`, `NewSession` is `session.NewSession` followed by `ec2.New`
for the region given. -/
structure AWSVPCReconciler (κ σ : Type) where
  Get : κ → Except GoError AWSVPC
  StatusUpdate : κ → AWSVPC → Option GoError × κ
  NewSession : String → Except GoError (EC2 σ)

/-- Everything outside one `Reconcile` invocation: the store, the cloud, the log
of EC2 calls and the log of objects handed to `Status().Update`. -/
structure Cluster (κ σ : Type) where
  store : κ
  cloud : σ
  calls : List Call
  writes : List AWSVPC

/-- Function `client.IgnoreNotFound`: `nil` for a not-found error. -/
def IgnoreNotFound (err : GoError) : Option GoError :=
  if err.notFound then none else some err

/-- Function `Reconcile` (lines 38-76). -/
def Reconcile {κ σ : Type} (r : AWSVPCReconciler κ σ) (k : Cluster κ σ) :
    Result × Cluster κ σ :=
  match r.Get k.store with
  | Except.error err =>
    match IgnoreNotFound err with
    | none => (Result.ok, k)
    | some e => (Result.err e, k)
  | Except.ok awsvpc =>
    match r.NewSession awsvpc.Spec.Region with
    | Except.error err => (Result.err err, k)
    | Except.ok svc =>
      match reconcilePass svc ⟨k.cloud, k.calls, awsvpc⟩ with
      | (Result.err err, w) => (Result.err err, { k with cloud := w.cloud, calls := w.calls })
      | (Result.panic, w) => (Result.panic, { k with cloud := w.cloud, calls := w.calls })
      | (Result.ok, w) =>
        match r.StatusUpdate k.store w.awsvpc with
        | (some err, store') =>
          (Result.err err,
            { store := store', cloud := w.cloud, calls := w.calls,
              writes := k.writes ++ [w.awsvpc] })
        | (none, store') =>
          (Result.ok,
            { store := store', cloud := w.cloud, calls := w.calls,
              writes := k.writes ++ [w.awsvpc] })

/-! ## A scripted EC2 service, for concrete runs -/

/-- One scripted reply of the mock service. -/
inductive Reply where
  | fail (e : GoError)
  | id (s : String)
  | cidrs (l : List String)
  | done
deriving DecidableEq, Repr

/-- The error the mock returns when the script does not fit the call. -/
def offScript : GoError := ⟨"off script", false⟩

/-- Reply of the mock to a call that returns a resource id. -/
def replyId : List Reply → Except GoError String × List Reply
  | Reply.id s :: rest => (Except.ok s, rest)
  | Reply.fail e :: rest => (Except.error e, rest)
  | _ :: rest => (Except.error offScript, rest)
  | [] => (Except.error offScript, [])

/-- Reply of the mock to a describe call. -/
def replyCidrs : List Reply → Except GoError (List String) × List Reply
  | Reply.cidrs l :: rest => (Except.ok l, rest)
  | Reply.fail e :: rest => (Except.error e, rest)
  | _ :: rest => (Except.error offScript, rest)
  | [] => (Except.error offScript, [])

/-- Reply of the mock to a call that returns only an error. -/
def replyDone : List Reply → Option GoError × List Reply
  | Reply.done :: rest => (none, rest)
  | Reply.fail e :: rest => (some e, rest)
  | _ :: rest => (some offScript, rest)
  | [] => (some offScript, [])

/-- A mock EC2 service whose state is the list of replies still to be given;
each call consumes the next reply, whatever its arguments. -/
def scriptedEC2 : EC2 (List Reply) where
  CreateVpc := fun s _ => replyId s
  CreateTags := fun s _ _ _ => replyDone s
  CreateSubnet := fun s _ _ => replyId s
  DescribeVpcs := fun s _ => replyCidrs s
  DescribeSubnets := fun s _ => replyCidrs s
  DeleteSubnet := fun s _ => replyDone s
  DeleteVpc := fun s _ => replyDone s

/-- The empty status of a resource seen for the first time. -/
def emptyStatus : AWSVPCStatus := ⟨"", "", "", ""⟩

/-- A sample specification. -/
def sampleSpec : AWSVPCSpec := ⟨"us-east-1", "10.1.0.0/16", "demo", "10.1.1.0/24"⟩

/-- A world over the scripted service with no call issued yet. -/
def scriptedWorld (script : List Reply) (st : AWSVPCStatus) : World (List Reply) :=
  ⟨script, [], ⟨sampleSpec, st⟩⟩

/-- The EC2 calls issued between the world `w` and the later world `w'`. -/
def issued {σ : Type} (w w' : World σ) : List Call :=
  w'.calls.drop w.calls.length

/-- A status of a resource whose VPC and subnet both exist. -/
def liveStatus : AWSVPCStatus := ⟨"vpc-1", "subnet-1", "Created", ""⟩

/-- A sample cloud error. -/
def boom : GoError := ⟨"boom", false⟩

/-- The objects handed to `Status().Update` between the cluster `k` and the later
cluster `k'`. -/
def statusWrites {κ σ : Type} (k k' : Cluster κ σ) : List AWSVPC :=
  k'.writes.drop k.writes.length

/-- A store that holds one object: `Get` returns it, `Status().Update` replaces
its status; every session gives the scripted service. -/
def memoryReconciler : AWSVPCReconciler AWSVPC (List Reply) where
  Get := fun stored => Except.ok stored
  StatusUpdate := fun stored obj => (none, { stored with Status := obj.Status })
  NewSession := fun _ => Except.ok scriptedEC2

/-- A cluster whose store holds the sample spec with the status given and
whose cloud follows the script given. -/
def scriptedCluster (script : List Reply) (st : AWSVPCStatus) :
    Cluster AWSVPC (List Reply) :=
  ⟨⟨sampleSpec, st⟩, script, [], []⟩

/-- The status invariant of the data model: state `Created` implies that both ids
are present and that `ErrorMessage` is empty. -/
def StatusInvariant (st : AWSVPCStatus) : Prop :=
  st.Status = "Created" → st.VPCID ≠ "" ∧ st.SubnetID ≠ "" ∧ st.ErrorMessage = ""

instance : DecidablePred StatusInvariant := fun st => by
  unfold StatusInvariant
  infer_instance

/-- The cloud returns non-empty ids from `CreateVpc` and `CreateSubnet`. -/
def ReturnsIds {σ : Type} (svc : EC2 σ) : Prop :=
  (∀ s cidr v s', svc.CreateVpc s cidr = (Except.ok v, s') → v ≠ "") ∧
  (∀ s vpc cidr v s', svc.CreateSubnet s vpc cidr = (Except.ok v, s') → v ≠ "")

/-- What holds of the status `st` left by a pass that returned `r`: state
`Created` implies a non-empty `VPCID` and an empty `ErrorMessage`, and a non-empty
`SubnetID` when the pass returned no error. -/
def CreatedSound (r : Result) (st : AWSVPCStatus) : Prop :=
  st.Status = "Created" →
    st.VPCID ≠ "" ∧ st.ErrorMessage = "" ∧ (r = Result.ok → st.SubnetID ≠ "")

/-- A service over a one-state cloud in which every call succeeds: creates
return fixed non-empty ids, describes the CIDRs of the sample spec. -/
def steadyEC2 : EC2 Unit where
  CreateVpc := fun s _ => (Except.ok "vpc-9", s)
  CreateTags := fun s _ _ _ => (none, s)
  CreateSubnet := fun s _ _ => (Except.ok "subnet-9", s)
  DescribeVpcs := fun s _ => (Except.ok ["10.1.0.0/16"], s)
  DescribeSubnets := fun s _ => (Except.ok ["10.1.1.0/24"], s)
  DeleteSubnet := fun s _ => (none, s)
  DeleteVpc := fun s _ => (none, s)

/-! ## The paths of the controller, one equation each -/

section Paths

variable {σ : Type} (svc : EC2 σ) (w : World σ)

theorem createVPC_createVpc_fails (err : GoError) (c1 : σ)
    (hv : svc.CreateVpc w.cloud w.awsvpc.Spec.CIDRBlock = (Except.error err, c1)) :
    createVPC svc w =
      (Result.err err,
        ⟨c1, w.calls ++ [Call.CreateVpc w.awsvpc.Spec.CIDRBlock],
          ⟨w.awsvpc.Spec, { w.awsvpc.Status with Status := "Error", ErrorMessage := err.Error }⟩⟩) := by
  simp [createVPC, hv, World.call, World.setStatus]

theorem createVPC_tag_fails (vpcId : String) (err : GoError) (c1 c2 : σ)
    (hv : svc.CreateVpc w.cloud w.awsvpc.Spec.CIDRBlock = (Except.ok vpcId, c1))
    (ht : svc.CreateTags c1 vpcId "Name" w.awsvpc.Spec.Name = (some err, c2)) :
    createVPC svc w =
      (Result.err err,
        ⟨c2, w.calls ++ [Call.CreateVpc w.awsvpc.Spec.CIDRBlock,
            Call.CreateTags vpcId "Name" w.awsvpc.Spec.Name],
          ⟨w.awsvpc.Spec, { w.awsvpc.Status with VPCID := vpcId, Status := "Created" }⟩⟩) := by
  simp [createVPC, hv, ht, World.call, World.setStatus]

theorem createVPC_subnet_fails (vpcId : String) (err : GoError) (c1 c2 c3 : σ)
    (hv : svc.CreateVpc w.cloud w.awsvpc.Spec.CIDRBlock = (Except.ok vpcId, c1))
    (ht : svc.CreateTags c1 vpcId "Name" w.awsvpc.Spec.Name = (none, c2))
    (hs : svc.CreateSubnet c2 vpcId w.awsvpc.Spec.SubnetCIDR = (Except.error err, c3)) :
    createVPC svc w =
      (Result.err err,
        ⟨c3, w.calls ++ [Call.CreateVpc w.awsvpc.Spec.CIDRBlock,
            Call.CreateTags vpcId "Name" w.awsvpc.Spec.Name,
            Call.CreateSubnet vpcId w.awsvpc.Spec.SubnetCIDR],
          ⟨w.awsvpc.Spec, { w.awsvpc.Status with VPCID := vpcId, Status := "Created" }⟩⟩) := by
  simp [createVPC, hv, ht, hs, World.call, World.setStatus]

theorem createVPC_succeeds (vpcId subnetId : String) (c1 c2 c3 : σ)
    (hv : svc.CreateVpc w.cloud w.awsvpc.Spec.CIDRBlock = (Except.ok vpcId, c1))
    (ht : svc.CreateTags c1 vpcId "Name" w.awsvpc.Spec.Name = (none, c2))
    (hs : svc.CreateSubnet c2 vpcId w.awsvpc.Spec.SubnetCIDR = (Except.ok subnetId, c3)) :
    createVPC svc w =
      (Result.ok,
        ⟨c3, w.calls ++ [Call.CreateVpc w.awsvpc.Spec.CIDRBlock,
            Call.CreateTags vpcId "Name" w.awsvpc.Spec.Name,
            Call.CreateSubnet vpcId w.awsvpc.Spec.SubnetCIDR],
          ⟨w.awsvpc.Spec,
            ⟨vpcId, subnetId, "Created", w.awsvpc.Status.ErrorMessage⟩⟩⟩) := by
  simp [createVPC, hv, ht, hs, World.call, World.setStatus]

theorem deleteVPCAndResources_subnet_fails (err : GoError) (c1 : σ)
    (hd : svc.DeleteSubnet w.cloud w.awsvpc.Status.SubnetID = (some err, c1)) :
    deleteVPCAndResources svc w =
      (some err, ⟨c1, w.calls ++ [Call.DeleteSubnet w.awsvpc.Status.SubnetID], w.awsvpc⟩) := by
  simp [deleteVPCAndResources, hd, World.call]

theorem deleteVPCAndResources_vpc_fails (err : GoError) (c1 c2 : σ)
    (hd : svc.DeleteSubnet w.cloud w.awsvpc.Status.SubnetID = (none, c1))
    (hv : svc.DeleteVpc c1 w.awsvpc.Status.VPCID = (some err, c2)) :
    deleteVPCAndResources svc w =
      (some err,
        ⟨c2, w.calls ++ [Call.DeleteSubnet w.awsvpc.Status.SubnetID,
            Call.DeleteVpc w.awsvpc.Status.VPCID], w.awsvpc⟩) := by
  simp [deleteVPCAndResources, hd, hv, World.call]

theorem deleteVPCAndResources_succeeds (c1 c2 : σ)
    (hd : svc.DeleteSubnet w.cloud w.awsvpc.Status.SubnetID = (none, c1))
    (hv : svc.DeleteVpc c1 w.awsvpc.Status.VPCID = (none, c2)) :
    deleteVPCAndResources svc w =
      (none,
        ⟨c2, w.calls ++ [Call.DeleteSubnet w.awsvpc.Status.SubnetID,
            Call.DeleteVpc w.awsvpc.Status.VPCID],
          ⟨w.awsvpc.Spec, ⟨"", "", "Deleted", w.awsvpc.Status.ErrorMessage⟩⟩⟩) := by
  simp [deleteVPCAndResources, hd, hv, World.call, World.setStatus]

theorem updateVPC_describe_fails (err : GoError) (c1 : σ)
    (hd : svc.DescribeVpcs w.cloud w.awsvpc.Status.VPCID = (Except.error err, c1)) :
    updateVPC svc w =
      (Result.err err, ⟨c1, w.calls ++ [Call.DescribeVpcs w.awsvpc.Status.VPCID], w.awsvpc⟩) := by
  simp [updateVPC, hd, World.call]

theorem updateVPC_drift (vpcCidr : String) (rest : List String) (c1 : σ)
    (hd : svc.DescribeVpcs w.cloud w.awsvpc.Status.VPCID = (Except.ok (vpcCidr :: rest), c1))
    (hne : vpcCidr ≠ w.awsvpc.Spec.CIDRBlock) :
    updateVPC svc w =
      match deleteVPCAndResources svc
          ⟨c1, w.calls ++ [Call.DescribeVpcs w.awsvpc.Status.VPCID], w.awsvpc⟩ with
      | (some err, w2) => (Result.err err, w2)
      | (none, w2) => createVPC svc w2 := by
  simp [updateVPC, hd, hne, World.call]

theorem updateVPC_tag_fails (vpcCidr : String) (rest : List String) (err : GoError) (c1 c2 : σ)
    (hd : svc.DescribeVpcs w.cloud w.awsvpc.Status.VPCID = (Except.ok (vpcCidr :: rest), c1))
    (heq : vpcCidr = w.awsvpc.Spec.CIDRBlock)
    (ht : svc.CreateTags c1 w.awsvpc.Status.VPCID "Name" w.awsvpc.Spec.Name = (some err, c2)) :
    updateVPC svc w =
      (Result.err err,
        ⟨c2, w.calls ++ [Call.DescribeVpcs w.awsvpc.Status.VPCID,
            Call.CreateTags w.awsvpc.Status.VPCID "Name" w.awsvpc.Spec.Name], w.awsvpc⟩) := by
  simp [updateVPC, hd, heq, ht, World.call]

theorem updateVPC_in_sync (vpcCidr subnetCidr : String) (rest rest' : List String)
    (c1 c2 c3 : σ)
    (hd : svc.DescribeVpcs w.cloud w.awsvpc.Status.VPCID = (Except.ok (vpcCidr :: rest), c1))
    (heq : vpcCidr = w.awsvpc.Spec.CIDRBlock)
    (ht : svc.CreateTags c1 w.awsvpc.Status.VPCID "Name" w.awsvpc.Spec.Name = (none, c2))
    (hs : svc.DescribeSubnets c2 w.awsvpc.Status.SubnetID = (Except.ok (subnetCidr :: rest'), c3))
    (heq' : subnetCidr = w.awsvpc.Spec.SubnetCIDR) :
    updateVPC svc w =
      (Result.ok,
        ⟨c3, w.calls ++ [Call.DescribeVpcs w.awsvpc.Status.VPCID,
            Call.CreateTags w.awsvpc.Status.VPCID "Name" w.awsvpc.Spec.Name,
            Call.DescribeSubnets w.awsvpc.Status.SubnetID],
          ⟨w.awsvpc.Spec, { w.awsvpc.Status with Status := "Updated" }⟩⟩) := by
  simp [updateVPC, hd, heq, ht, hs, heq', World.call, World.setStatus]

theorem updateVPC_subnet_drift (vpcCidr subnetCidr subnetId : String) (rest rest' : List String)
    (c1 c2 c3 c4 c5 : σ)
    (hd : svc.DescribeVpcs w.cloud w.awsvpc.Status.VPCID = (Except.ok (vpcCidr :: rest), c1))
    (heq : vpcCidr = w.awsvpc.Spec.CIDRBlock)
    (ht : svc.CreateTags c1 w.awsvpc.Status.VPCID "Name" w.awsvpc.Spec.Name = (none, c2))
    (hs : svc.DescribeSubnets c2 w.awsvpc.Status.SubnetID = (Except.ok (subnetCidr :: rest'), c3))
    (hne : subnetCidr ≠ w.awsvpc.Spec.SubnetCIDR)
    (hx : svc.DeleteSubnet c3 w.awsvpc.Status.SubnetID = (none, c4))
    (hc : svc.CreateSubnet c4 w.awsvpc.Status.VPCID w.awsvpc.Spec.SubnetCIDR
      = (Except.ok subnetId, c5)) :
    updateVPC svc w =
      (Result.ok,
        ⟨c5, w.calls ++ [Call.DescribeVpcs w.awsvpc.Status.VPCID,
            Call.CreateTags w.awsvpc.Status.VPCID "Name" w.awsvpc.Spec.Name,
            Call.DescribeSubnets w.awsvpc.Status.SubnetID,
            Call.DeleteSubnet w.awsvpc.Status.SubnetID,
            Call.CreateSubnet w.awsvpc.Status.VPCID w.awsvpc.Spec.SubnetCIDR],
          ⟨w.awsvpc.Spec,
            ⟨w.awsvpc.Status.VPCID, subnetId, "Updated", w.awsvpc.Status.ErrorMessage⟩⟩⟩) := by
  simp [updateVPC, hd, heq, ht, hs, hne, hx, hc, World.call, World.setStatus]

theorem createdSound_of_invariant (r : Result) (st : AWSVPCStatus)
    (hinv : StatusInvariant st) : CreatedSound r st := by
  intro h
  exact ⟨(hinv h).1, (hinv h).2.2, fun _ => (hinv h).2.1⟩

theorem createVPC_createdSound (hids : ReturnsIds svc)
    (hmsg : w.awsvpc.Status.ErrorMessage = "") :
    CreatedSound (createVPC svc w).1 (createVPC svc w).2.awsvpc.Status := by
  rcases hv : svc.CreateVpc w.cloud w.awsvpc.Spec.CIDRBlock with ⟨r1, c1⟩
  cases r1 with
  | error e =>
    rw [createVPC_createVpc_fails svc w e c1 hv]
    simp [CreatedSound]
  | ok v =>
    have hvne : v ≠ "" := hids.1 _ _ _ _ hv
    rcases ht : svc.CreateTags c1 v "Name" w.awsvpc.Spec.Name with ⟨r2, c2⟩
    cases r2 with
    | some e =>
      rw [createVPC_tag_fails svc w v e c1 c2 hv ht]
      simp [CreatedSound, hvne, hmsg]
    | none =>
      rcases hs : svc.CreateSubnet c2 v w.awsvpc.Spec.SubnetCIDR with ⟨r3, c3⟩
      cases r3 with
      | error e =>
        rw [createVPC_subnet_fails svc w v e c1 c2 c3 hv ht hs]
        simp [CreatedSound, hvne, hmsg]
      | ok sid =>
        have hsne : sid ≠ "" := hids.2 _ _ _ _ _ hs
        rw [createVPC_succeeds svc w v sid c1 c2 c3 hv ht hs]
        simp [CreatedSound, hvne, hmsg, hsne]

theorem updateVPC_createdSound (hids : ReturnsIds svc)
    (hinv : StatusInvariant w.awsvpc.Status) (hmsg : w.awsvpc.Status.ErrorMessage = "") :
    CreatedSound (updateVPC svc w).1 (updateVPC svc w).2.awsvpc.Status := by
  rcases hd : svc.DescribeVpcs w.cloud w.awsvpc.Status.VPCID with ⟨r1, c1⟩
  rcases r1 with e | _ | ⟨vpcCidr, rest⟩
  · rw [updateVPC_describe_fails svc w e c1 hd]
    exact createdSound_of_invariant _ _ hinv
  · have hrun : (updateVPC svc w).2.awsvpc = w.awsvpc := by simp [updateVPC, hd, World.call]
    rw [hrun]
    exact createdSound_of_invariant _ _ hinv
  · by_cases hne : vpcCidr ≠ w.awsvpc.Spec.CIDRBlock
    · have hrun := updateVPC_drift svc w vpcCidr rest c1 hd hne
      rcases hx : svc.DeleteSubnet c1 w.awsvpc.Status.SubnetID with ⟨r2, c2⟩
      cases r2 with
      | some e =>
        rw [deleteVPCAndResources_subnet_fails svc
          ⟨c1, w.calls ++ [Call.DescribeVpcs w.awsvpc.Status.VPCID], w.awsvpc⟩ e c2 hx] at hrun
        rw [hrun]
        exact createdSound_of_invariant _ _ hinv
      | none =>
        rcases hv : svc.DeleteVpc c2 w.awsvpc.Status.VPCID with ⟨r3, c3⟩
        cases r3 with
        | some e =>
          rw [deleteVPCAndResources_vpc_fails svc
            ⟨c1, w.calls ++ [Call.DescribeVpcs w.awsvpc.Status.VPCID], w.awsvpc⟩ e c2 c3 hx hv]
            at hrun
          rw [hrun]
          exact createdSound_of_invariant _ _ hinv
        | none =>
          rw [deleteVPCAndResources_succeeds svc
            ⟨c1, w.calls ++ [Call.DescribeVpcs w.awsvpc.Status.VPCID], w.awsvpc⟩ c2 c3 hx hv]
            at hrun
          simp only [] at hrun
          rw [hrun]
          exact createVPC_createdSound svc _ hids hmsg
    · have heq : vpcCidr = w.awsvpc.Spec.CIDRBlock := not_not.mp hne
      rcases ht : svc.CreateTags c1 w.awsvpc.Status.VPCID "Name" w.awsvpc.Spec.Name
        with ⟨r2, c2⟩
      cases r2 with
      | some e =>
        rw [updateVPC_tag_fails svc w vpcCidr rest e c1 c2 hd heq ht]
        exact createdSound_of_invariant _ _ hinv
      | none =>
        rcases hs : svc.DescribeSubnets c2 w.awsvpc.Status.SubnetID with ⟨r3, c3⟩
        rcases r3 with e | _ | ⟨subnetCidr, rest'⟩
        · have hrun : (updateVPC svc w).2.awsvpc = w.awsvpc := by
            simp [updateVPC, hd, heq, ht, hs, World.call]
          rw [hrun]
          exact createdSound_of_invariant _ _ hinv
        · have hrun : (updateVPC svc w).2.awsvpc = w.awsvpc := by
            simp [updateVPC, hd, heq, ht, hs, World.call]
          rw [hrun]
          exact createdSound_of_invariant _ _ hinv
        · by_cases hne' : subnetCidr ≠ w.awsvpc.Spec.SubnetCIDR
          · rcases hx : svc.DeleteSubnet c3 w.awsvpc.Status.SubnetID with ⟨r4, c4⟩
            cases r4 with
            | some e =>
              have hrun : (updateVPC svc w).2.awsvpc = w.awsvpc := by
                simp [updateVPC, hd, heq, ht, hs, hne', hx, World.call]
              rw [hrun]
              exact createdSound_of_invariant _ _ hinv
            | none =>
              rcases hc : svc.CreateSubnet c4 w.awsvpc.Status.VPCID w.awsvpc.Spec.SubnetCIDR
                with ⟨r5, c5⟩
              cases r5 with
              | error e =>
                have hrun : (updateVPC svc w).2.awsvpc = w.awsvpc := by
                  simp [updateVPC, hd, heq, ht, hs, hne', hx, hc, World.call]
                rw [hrun]
                exact createdSound_of_invariant _ _ hinv
              | ok sid =>
                rw [updateVPC_subnet_drift svc w vpcCidr subnetCidr sid rest rest'
                  c1 c2 c3 c4 c5 hd heq ht hs hne' hx hc]
                simp [CreatedSound]
          · rw [updateVPC_in_sync svc w vpcCidr subnetCidr rest rest' c1 c2 c3 hd heq ht hs
              (not_not.mp hne')]
            simp [CreatedSound]

theorem steadyEC2_returnsIds : ReturnsIds steadyEC2 := by
  constructor
  · intro s cidr v s' h
    simp only [steadyEC2, Prod.mk.injEq, Except.ok.injEq] at h
    rw [← h.1]
    decide
  · intro s vpc cidr v s' h
    simp only [steadyEC2, Prod.mk.injEq, Except.ok.injEq] at h
    rw [← h.1]
    decide

theorem Reconcile_path_fails {κ : Type} (r : AWSVPCReconciler κ σ) (k : Cluster κ σ)
    (awsvpc : AWSVPC) (err : GoError) (w' : World σ)
    (hget : r.Get k.store = Except.ok awsvpc)
    (hsess : r.NewSession awsvpc.Spec.Region = Except.ok svc)
    (hp : reconcilePass svc ⟨k.cloud, k.calls, awsvpc⟩ = (Result.err err, w')) :
    Reconcile r k = (Result.err err, ⟨k.store, w'.cloud, w'.calls, k.writes⟩) := by
  simp [Reconcile, hget, hsess, hp]

theorem Reconcile_path_succeeds {κ : Type} (r : AWSVPCReconciler κ σ) (k : Cluster κ σ)
    (awsvpc : AWSVPC) (w' : World σ)
    (hget : r.Get k.store = Except.ok awsvpc)
    (hsess : r.NewSession awsvpc.Spec.Region = Except.ok svc)
    (hp : reconcilePass svc ⟨k.cloud, k.calls, awsvpc⟩ = (Result.ok, w')) :
    Reconcile r k =
      ((match (r.StatusUpdate k.store w'.awsvpc).1 with
        | some err => Result.err err
        | none => Result.ok),
        ⟨(r.StatusUpdate k.store w'.awsvpc).2, w'.cloud, w'.calls, k.writes ++ [w'.awsvpc]⟩) := by
  rcases hu : r.StatusUpdate k.store w'.awsvpc with ⟨e, store'⟩
  cases e <;> simp [Reconcile, hget, hsess, hp, hu]

end Paths

/-! ## The claims -/

section Claims

variable {σ : Type}

/-- C1 (the code at the failing inputs): a failing `CreateVpc` is returned and
recorded in `ErrorMessage`, but a failing `CreateTags` or `CreateSubnet` in
`createVPC` and a failing `DescribeVpcs` in `updateVPC` are returned with
`ErrorMessage` left as it was (empty), not equal to the message of the error. -/
theorem cloud_error_not_recorded_in_status :
    ((createVPC scriptedEC2 (scriptedWorld [Reply.fail boom] emptyStatus)).1 = Result.err boom ∧
      (createVPC scriptedEC2 (scriptedWorld [Reply.fail boom] emptyStatus)).2.awsvpc.Status
        = ⟨"", "", "Error", "boom"⟩) ∧
    ((createVPC scriptedEC2
        (scriptedWorld [Reply.id "vpc-1", Reply.fail boom] emptyStatus)).1 = Result.err boom ∧
      (createVPC scriptedEC2
        (scriptedWorld [Reply.id "vpc-1", Reply.fail boom] emptyStatus)).2.awsvpc.Status
        = ⟨"vpc-1", "", "Created", ""⟩ ∧
      (createVPC scriptedEC2
        (scriptedWorld [Reply.id "vpc-1", Reply.fail boom] emptyStatus)).2.awsvpc.Status.ErrorMessage
        ≠ boom.Error) ∧
    ((createVPC scriptedEC2
        (scriptedWorld [Reply.id "vpc-1", Reply.done, Reply.fail boom] emptyStatus)).1
        = Result.err boom ∧
      (createVPC scriptedEC2
        (scriptedWorld [Reply.id "vpc-1", Reply.done, Reply.fail boom] emptyStatus)).2.awsvpc.Status
        = ⟨"vpc-1", "", "Created", ""⟩) ∧
    ((updateVPC scriptedEC2 (scriptedWorld [Reply.fail boom] liveStatus)).1 = Result.err boom ∧
      (updateVPC scriptedEC2 (scriptedWorld [Reply.fail boom] liveStatus)).2.awsvpc.Status
        = ⟨"vpc-1", "subnet-1", "Created", ""⟩) := by
  decide

/-- C3 (ordering safety): from a status with non-empty `VPCID` whose live VPC CIDR
differs from the desired one, if the `DeleteSubnet` of the recreate sequence fails,
the pass (which is `updateVPC`) returns that error, has issued exactly
`DescribeVpcs` and `DeleteSubnet` (no `DeleteVpc`, no create call), and leaves the
object, so `VPCID` and `SubnetID`, as it was. -/
theorem subnet_delete_failure_aborts_recreate (svc : EC2 σ) (w : World σ)
    (vpcCidr : String) (rest : List String) (err : GoError) (c1 c2 : σ)
    (hid : w.awsvpc.Status.VPCID ≠ "")
    (hd : svc.DescribeVpcs w.cloud w.awsvpc.Status.VPCID = (Except.ok (vpcCidr :: rest), c1))
    (hne : vpcCidr ≠ w.awsvpc.Spec.CIDRBlock)
    (hx : svc.DeleteSubnet c1 w.awsvpc.Status.SubnetID = (some err, c2)) :
    reconcilePass svc w = updateVPC svc w ∧
    (updateVPC svc w).1 = Result.err err ∧
    issued w (updateVPC svc w).2
      = [Call.DescribeVpcs w.awsvpc.Status.VPCID, Call.DeleteSubnet w.awsvpc.Status.SubnetID] ∧
    (∀ c ∈ issued w (updateVPC svc w).2, c.isDeleteVpc = false ∧ c.isCreate = false) ∧
    (updateVPC svc w).2.awsvpc.Status.VPCID = w.awsvpc.Status.VPCID ∧
    (updateVPC svc w).2.awsvpc.Status.SubnetID = w.awsvpc.Status.SubnetID ∧
    (updateVPC svc w).2.awsvpc = w.awsvpc := by
  have hpass : reconcilePass svc w = updateVPC svc w := by simp [reconcilePass, hid]
  have hrun : updateVPC svc w =
      (Result.err err,
        ⟨c2, w.calls ++ [Call.DescribeVpcs w.awsvpc.Status.VPCID,
          Call.DeleteSubnet w.awsvpc.Status.SubnetID], w.awsvpc⟩) := by
    rw [updateVPC_drift svc w vpcCidr rest c1 hd hne,
      deleteVPCAndResources_subnet_fails svc _ err c2 hx]
    simp
  refine ⟨hpass, ?_⟩
  rw [hrun]
  simp [issued, Call.isDeleteVpc, Call.isCreate]

/-- Witness of C3 on the scripted service: live CIDR `10.0.0.0/16` against the
desired `10.1.0.0/16`, and the subnet delete fails. -/
theorem subnet_delete_failure_aborts_recreate_witness :
    (updateVPC scriptedEC2
        (scriptedWorld [Reply.cidrs ["10.0.0.0/16"], Reply.fail boom, Reply.done] liveStatus)).1
      = Result.err boom ∧
    issued (scriptedWorld [Reply.cidrs ["10.0.0.0/16"], Reply.fail boom, Reply.done] liveStatus)
        (updateVPC scriptedEC2
          (scriptedWorld [Reply.cidrs ["10.0.0.0/16"], Reply.fail boom, Reply.done] liveStatus)).2
      = [Call.DescribeVpcs "vpc-1", Call.DeleteSubnet "subnet-1"] :=
  have h := subnet_delete_failure_aborts_recreate scriptedEC2
    (scriptedWorld [Reply.cidrs ["10.0.0.0/16"], Reply.fail boom, Reply.done] liveStatus)
    "10.0.0.0/16" [] boom [Reply.fail boom, Reply.done] [Reply.done]
    (by decide) rfl (by decide) rfl
  ⟨h.2.1, h.2.2.1⟩

/-- C4 as stated fails: live CIDR `10.0.0.0/16` against the desired
`10.1.0.0/16`, `DeleteSubnet` succeeds and `DeleteVpc` fails; the pass returns the
error and `SubnetID` is still `subnet-1`, not empty. -/
theorem vpc_delete_failure_subnet_id_not_cleared :
    (updateVPC scriptedEC2
        (scriptedWorld [Reply.cidrs ["10.0.0.0/16"], Reply.done, Reply.fail boom] liveStatus)).1
      = Result.err boom ∧
    issued (scriptedWorld [Reply.cidrs ["10.0.0.0/16"], Reply.done, Reply.fail boom] liveStatus)
        (updateVPC scriptedEC2
          (scriptedWorld [Reply.cidrs ["10.0.0.0/16"], Reply.done, Reply.fail boom] liveStatus)).2
      = [Call.DescribeVpcs "vpc-1", Call.DeleteSubnet "subnet-1", Call.DeleteVpc "vpc-1"] ∧
    (updateVPC scriptedEC2
        (scriptedWorld [Reply.cidrs ["10.0.0.0/16"], Reply.done, Reply.fail boom]
          liveStatus)).2.awsvpc.Status.SubnetID = "subnet-1" ∧
    (updateVPC scriptedEC2
        (scriptedWorld [Reply.cidrs ["10.0.0.0/16"], Reply.done, Reply.fail boom]
          liveStatus)).2.awsvpc.Status.SubnetID ≠ "" := by
  decide

/-- C4 (amended): if in the recreate sequence `DeleteSubnet` succeeds and
`DeleteVpc` then fails, `deleteVPCAndResources` returns the error and leaves the
object as it was, and so does the `updateVPC` pass that ran it: `SubnetID` and
`VPCID` are both unchanged. -/
theorem vpc_delete_failure_keeps_status (svc : EC2 σ) (w : World σ)
    (vpcCidr : String) (rest : List String) (err : GoError) (c1 c2 c3 : σ)
    (hvid : w.awsvpc.Status.VPCID ≠ "") (hsid : w.awsvpc.Status.SubnetID ≠ "")
    (hd : svc.DescribeVpcs w.cloud w.awsvpc.Status.VPCID = (Except.ok (vpcCidr :: rest), c1))
    (hne : vpcCidr ≠ w.awsvpc.Spec.CIDRBlock)
    (hx : svc.DeleteSubnet c1 w.awsvpc.Status.SubnetID = (none, c2))
    (hv : svc.DeleteVpc c2 w.awsvpc.Status.VPCID = (some err, c3)) :
    deleteVPCAndResources svc
        ⟨c1, w.calls ++ [Call.DescribeVpcs w.awsvpc.Status.VPCID], w.awsvpc⟩
      = (some err,
          ⟨c3, w.calls ++ [Call.DescribeVpcs w.awsvpc.Status.VPCID] ++
            [Call.DeleteSubnet w.awsvpc.Status.SubnetID, Call.DeleteVpc w.awsvpc.Status.VPCID],
            w.awsvpc⟩) ∧
    reconcilePass svc w = updateVPC svc w ∧
    (updateVPC svc w).1 = Result.err err ∧
    (updateVPC svc w).2.awsvpc = w.awsvpc ∧
    (updateVPC svc w).2.awsvpc.Status.SubnetID = w.awsvpc.Status.SubnetID ∧
    (updateVPC svc w).2.awsvpc.Status.SubnetID ≠ "" ∧
    (updateVPC svc w).2.awsvpc.Status.VPCID = w.awsvpc.Status.VPCID := by
  have hdel := deleteVPCAndResources_vpc_fails svc
    ⟨c1, w.calls ++ [Call.DescribeVpcs w.awsvpc.Status.VPCID], w.awsvpc⟩ err c2 c3 hx hv
  have hrun := updateVPC_drift svc w vpcCidr rest c1 hd hne
  rw [hdel] at hrun
  refine ⟨hdel, by simp [reconcilePass, hvid], ?_⟩
  rw [hrun]
  simp [hsid]

/-- Witness of the amended C4 on the scripted service. -/
theorem vpc_delete_failure_keeps_status_witness :
    (updateVPC scriptedEC2
        (scriptedWorld [Reply.cidrs ["10.0.0.0/16"], Reply.done, Reply.fail boom] liveStatus)).1
      = Result.err boom ∧
    (updateVPC scriptedEC2
        (scriptedWorld [Reply.cidrs ["10.0.0.0/16"], Reply.done, Reply.fail boom]
          liveStatus)).2.awsvpc = ⟨sampleSpec, liveStatus⟩ :=
  have h := vpc_delete_failure_keeps_status scriptedEC2
    (scriptedWorld [Reply.cidrs ["10.0.0.0/16"], Reply.done, Reply.fail boom] liveStatus)
    "10.0.0.0/16" [] boom [Reply.done, Reply.fail boom] [Reply.fail boom] []
    (by decide) (by decide) rfl (by decide) rfl rfl
  ⟨h.2.2.1, h.2.2.2.1⟩

/-- C5 (drift triggers full recreate): from a status with non-empty `VPCID` whose
live VPC CIDR differs from the desired one, all calls succeeding, the pass (which
is `updateVPC`) issues `DescribeVpcs` and then, as its mutating calls, exactly
`DeleteSubnet` (old subnet), `DeleteVpc` (old VPC), `CreateVpc` (desired CIDR),
`CreateTags` (new VPC) and `CreateSubnet` (new VPC, desired subnet CIDR), in this
order. -/
theorem vpc_drift_recreates_in_order (svc : EC2 σ) (w : World σ)
    (vpcCidr newVpc newSubnet : String) (rest : List String) (c1 c2 c3 c4 c5 c6 : σ)
    (hid : w.awsvpc.Status.VPCID ≠ "")
    (hd : svc.DescribeVpcs w.cloud w.awsvpc.Status.VPCID = (Except.ok (vpcCidr :: rest), c1))
    (hne : vpcCidr ≠ w.awsvpc.Spec.CIDRBlock)
    (hx : svc.DeleteSubnet c1 w.awsvpc.Status.SubnetID = (none, c2))
    (hv : svc.DeleteVpc c2 w.awsvpc.Status.VPCID = (none, c3))
    (hc : svc.CreateVpc c3 w.awsvpc.Spec.CIDRBlock = (Except.ok newVpc, c4))
    (ht : svc.CreateTags c4 newVpc "Name" w.awsvpc.Spec.Name = (none, c5))
    (hs : svc.CreateSubnet c5 newVpc w.awsvpc.Spec.SubnetCIDR = (Except.ok newSubnet, c6)) :
    reconcilePass svc w = updateVPC svc w ∧
    (updateVPC svc w).1 = Result.ok ∧
    issued w (updateVPC svc w).2
      = [Call.DescribeVpcs w.awsvpc.Status.VPCID,
          Call.DeleteSubnet w.awsvpc.Status.SubnetID,
          Call.DeleteVpc w.awsvpc.Status.VPCID,
          Call.CreateVpc w.awsvpc.Spec.CIDRBlock,
          Call.CreateTags newVpc "Name" w.awsvpc.Spec.Name,
          Call.CreateSubnet newVpc w.awsvpc.Spec.SubnetCIDR] ∧
    (issued w (updateVPC svc w).2).filter Call.mutating
      = [Call.DeleteSubnet w.awsvpc.Status.SubnetID,
          Call.DeleteVpc w.awsvpc.Status.VPCID,
          Call.CreateVpc w.awsvpc.Spec.CIDRBlock,
          Call.CreateTags newVpc "Name" w.awsvpc.Spec.Name,
          Call.CreateSubnet newVpc w.awsvpc.Spec.SubnetCIDR] ∧
    (updateVPC svc w).2.awsvpc.Status
      = ⟨newVpc, newSubnet, "Created", w.awsvpc.Status.ErrorMessage⟩ := by
  have hpass : reconcilePass svc w = updateVPC svc w := by simp [reconcilePass, hid]
  have hdel := deleteVPCAndResources_succeeds svc
    ⟨c1, w.calls ++ [Call.DescribeVpcs w.awsvpc.Status.VPCID], w.awsvpc⟩ c2 c3 hx hv
  have hrun := updateVPC_drift svc w vpcCidr rest c1 hd hne
  rw [hdel] at hrun
  have hcre := createVPC_succeeds svc
    ⟨c3, w.calls ++ [Call.DescribeVpcs w.awsvpc.Status.VPCID] ++
        [Call.DeleteSubnet w.awsvpc.Status.SubnetID, Call.DeleteVpc w.awsvpc.Status.VPCID],
      ⟨w.awsvpc.Spec, ⟨"", "", "Deleted", w.awsvpc.Status.ErrorMessage⟩⟩⟩
    newVpc newSubnet c4 c5 c6 hc ht hs
  simp only [] at hrun hcre
  rw [hcre] at hrun
  refine ⟨hpass, ?_⟩
  rw [hrun]
  simp [issued, Call.mutating]

/-- Witness of C5 on the scripted service: live `10.0.0.0/16`, desired
`10.1.0.0/16`. -/
theorem vpc_drift_recreates_in_order_witness :
    (issued
        (scriptedWorld [Reply.cidrs ["10.0.0.0/16"], Reply.done, Reply.done, Reply.id "vpc-2",
          Reply.done, Reply.id "subnet-2"] liveStatus)
        (updateVPC scriptedEC2
          (scriptedWorld [Reply.cidrs ["10.0.0.0/16"], Reply.done, Reply.done, Reply.id "vpc-2",
            Reply.done, Reply.id "subnet-2"] liveStatus)).2).filter Call.mutating
      = [Call.DeleteSubnet "subnet-1", Call.DeleteVpc "vpc-1", Call.CreateVpc "10.1.0.0/16",
          Call.CreateTags "vpc-2" "Name" "demo", Call.CreateSubnet "vpc-2" "10.1.1.0/24"] :=
  (vpc_drift_recreates_in_order scriptedEC2
    (scriptedWorld [Reply.cidrs ["10.0.0.0/16"], Reply.done, Reply.done, Reply.id "vpc-2",
      Reply.done, Reply.id "subnet-2"] liveStatus)
    "10.0.0.0/16" "vpc-2" "subnet-2" []
    [Reply.done, Reply.done, Reply.id "vpc-2", Reply.done, Reply.id "subnet-2"]
    [Reply.done, Reply.id "vpc-2", Reply.done, Reply.id "subnet-2"]
    [Reply.id "vpc-2", Reply.done, Reply.id "subnet-2"]
    [Reply.done, Reply.id "subnet-2"] [Reply.id "subnet-2"] []
    (by decide) rfl (by decide) rfl rfl rfl rfl rfl).2.2.2.1

/-- C6 (subnet-only drift): from a status with non-empty `VPCID` whose live VPC
CIDR equals the desired one and whose live subnet CIDR differs from the desired
one, all calls succeeding, the pass (which is `updateVPC`) issues no `DeleteVpc` and
no `CreateVpc`; its creating and deleting calls are `DeleteSubnet` of the old subnet
followed by one `CreateSubnet` in the same VPC with the desired subnet CIDR; `VPCID`
is unchanged, `SubnetID` is the new id and the state is `Updated`. -/
theorem subnet_drift_replaces_subnet_only (svc : EC2 σ) (w : World σ)
    (vpcCidr subnetCidr newSubnet : String) (rest rest' : List String) (c1 c2 c3 c4 c5 : σ)
    (hid : w.awsvpc.Status.VPCID ≠ "")
    (hd : svc.DescribeVpcs w.cloud w.awsvpc.Status.VPCID = (Except.ok (vpcCidr :: rest), c1))
    (heq : vpcCidr = w.awsvpc.Spec.CIDRBlock)
    (ht : svc.CreateTags c1 w.awsvpc.Status.VPCID "Name" w.awsvpc.Spec.Name = (none, c2))
    (hs : svc.DescribeSubnets c2 w.awsvpc.Status.SubnetID = (Except.ok (subnetCidr :: rest'), c3))
    (hne : subnetCidr ≠ w.awsvpc.Spec.SubnetCIDR)
    (hx : svc.DeleteSubnet c3 w.awsvpc.Status.SubnetID = (none, c4))
    (hc : svc.CreateSubnet c4 w.awsvpc.Status.VPCID w.awsvpc.Spec.SubnetCIDR
      = (Except.ok newSubnet, c5)) :
    reconcilePass svc w = updateVPC svc w ∧
    (updateVPC svc w).1 = Result.ok ∧
    (∀ c ∈ issued w (updateVPC svc w).2, c.isDeleteVpc = false ∧ c.isCreateVpc = false) ∧
    (issued w (updateVPC svc w).2).filter Call.createsOrDeletes
      = [Call.DeleteSubnet w.awsvpc.Status.SubnetID,
          Call.CreateSubnet w.awsvpc.Status.VPCID w.awsvpc.Spec.SubnetCIDR] ∧
    (updateVPC svc w).2.awsvpc.Status.VPCID = w.awsvpc.Status.VPCID ∧
    (updateVPC svc w).2.awsvpc.Status.SubnetID = newSubnet ∧
    (updateVPC svc w).2.awsvpc.Status.Status = "Updated" := by
  refine ⟨by simp [reconcilePass, hid], ?_⟩
  rw [updateVPC_subnet_drift svc w vpcCidr subnetCidr newSubnet rest rest' c1 c2 c3 c4 c5
    hd heq ht hs hne hx hc]
  simp [issued, Call.isDeleteVpc, Call.isCreateVpc, Call.createsOrDeletes]

/-- Witness of C6 on the scripted service: the live subnet CIDR is `10.1.9.0/24`,
the desired one `10.1.1.0/24`. -/
theorem subnet_drift_replaces_subnet_only_witness :
    (updateVPC scriptedEC2
        (scriptedWorld [Reply.cidrs ["10.1.0.0/16"], Reply.done, Reply.cidrs ["10.1.9.0/24"],
          Reply.done, Reply.id "subnet-2"] liveStatus)).2.awsvpc.Status.VPCID = "vpc-1" ∧
    (updateVPC scriptedEC2
        (scriptedWorld [Reply.cidrs ["10.1.0.0/16"], Reply.done, Reply.cidrs ["10.1.9.0/24"],
          Reply.done, Reply.id "subnet-2"] liveStatus)).2.awsvpc.Status.SubnetID = "subnet-2" ∧
    (updateVPC scriptedEC2
        (scriptedWorld [Reply.cidrs ["10.1.0.0/16"], Reply.done, Reply.cidrs ["10.1.9.0/24"],
          Reply.done, Reply.id "subnet-2"] liveStatus)).2.awsvpc.Status.Status = "Updated" :=
  (subnet_drift_replaces_subnet_only scriptedEC2
    (scriptedWorld [Reply.cidrs ["10.1.0.0/16"], Reply.done, Reply.cidrs ["10.1.9.0/24"],
      Reply.done, Reply.id "subnet-2"] liveStatus)
    "10.1.0.0/16" "10.1.9.0/24" "subnet-2" [] []
    [Reply.done, Reply.cidrs ["10.1.9.0/24"], Reply.done, Reply.id "subnet-2"]
    [Reply.cidrs ["10.1.9.0/24"], Reply.done, Reply.id "subnet-2"]
    [Reply.done, Reply.id "subnet-2"] [Reply.id "subnet-2"] []
    (by decide) rfl (by decide) rfl rfl (by decide) rfl rfl).2.2.2.2

/-- C7 (create path): from a status with empty `VPCID`, all calls succeeding, the
pass (which is `createVPC`) issues `CreateVpc` with the desired CIDR, then
`CreateTags` on the returned VPC with `Name` = the desired name, then
`CreateSubnet` in that VPC with the desired subnet CIDR, and leaves `VPCID` and
`SubnetID` equal to the returned ids and the state `Created`. -/
theorem create_path_creates_tags_and_subnets (svc : EC2 σ) (w : World σ)
    (vpcId subnetId : String) (c1 c2 c3 : σ)
    (hid : w.awsvpc.Status.VPCID = "")
    (hv : svc.CreateVpc w.cloud w.awsvpc.Spec.CIDRBlock = (Except.ok vpcId, c1))
    (ht : svc.CreateTags c1 vpcId "Name" w.awsvpc.Spec.Name = (none, c2))
    (hs : svc.CreateSubnet c2 vpcId w.awsvpc.Spec.SubnetCIDR = (Except.ok subnetId, c3)) :
    reconcilePass svc w = createVPC svc w ∧
    (createVPC svc w).1 = Result.ok ∧
    issued w (createVPC svc w).2
      = [Call.CreateVpc w.awsvpc.Spec.CIDRBlock,
          Call.CreateTags vpcId "Name" w.awsvpc.Spec.Name,
          Call.CreateSubnet vpcId w.awsvpc.Spec.SubnetCIDR] ∧
    (createVPC svc w).2.awsvpc.Status.VPCID = vpcId ∧
    (createVPC svc w).2.awsvpc.Status.SubnetID = subnetId ∧
    (createVPC svc w).2.awsvpc.Status.Status = "Created" := by
  refine ⟨by simp [reconcilePass, hid], ?_⟩
  rw [createVPC_succeeds svc w vpcId subnetId c1 c2 c3 hv ht hs]
  simp [issued]

/-- Witness of C7 on the scripted service, from the empty status. -/
theorem create_path_creates_tags_and_subnets_witness :
    issued (scriptedWorld [Reply.id "vpc-1", Reply.done, Reply.id "subnet-1"] emptyStatus)
        (createVPC scriptedEC2
          (scriptedWorld [Reply.id "vpc-1", Reply.done, Reply.id "subnet-1"] emptyStatus)).2
      = [Call.CreateVpc "10.1.0.0/16", Call.CreateTags "vpc-1" "Name" "demo",
          Call.CreateSubnet "vpc-1" "10.1.1.0/24"] ∧
    (createVPC scriptedEC2
        (scriptedWorld [Reply.id "vpc-1", Reply.done, Reply.id "subnet-1"]
          emptyStatus)).2.awsvpc.Status.VPCID = "vpc-1" :=
  have h := create_path_creates_tags_and_subnets scriptedEC2
    (scriptedWorld [Reply.id "vpc-1", Reply.done, Reply.id "subnet-1"] emptyStatus)
    "vpc-1" "subnet-1" [Reply.done, Reply.id "subnet-1"] [Reply.id "subnet-1"] []
    rfl rfl rfl rfl
  ⟨h.2.2.1, h.2.2.2.1⟩

/-- C8 as stated fails. Two passes from the empty status over a cloud in which
every call succeeds and the describes return the CIDRs the resources were created
with: the first pass leaves state `Created`, the second leaves the same ids with
state `Updated`, so the two statuses differ. And over a cloud that returns the
empty string as VPC id, the second pass runs the create path again and the subnet
id changes. -/
theorem second_pass_status_differs :
    ((reconcilePass scriptedEC2
        (scriptedWorld [Reply.id "vpc-1", Reply.done, Reply.id "subnet-1",
          Reply.cidrs ["10.1.0.0/16"], Reply.done, Reply.cidrs ["10.1.1.0/24"]]
          emptyStatus)).2.awsvpc.Status = ⟨"vpc-1", "subnet-1", "Created", ""⟩ ∧
      (reconcilePass scriptedEC2
        (reconcilePass scriptedEC2
          (scriptedWorld [Reply.id "vpc-1", Reply.done, Reply.id "subnet-1",
            Reply.cidrs ["10.1.0.0/16"], Reply.done, Reply.cidrs ["10.1.1.0/24"]]
            emptyStatus)).2).1 = Result.ok ∧
      (reconcilePass scriptedEC2
        (reconcilePass scriptedEC2
          (scriptedWorld [Reply.id "vpc-1", Reply.done, Reply.id "subnet-1",
            Reply.cidrs ["10.1.0.0/16"], Reply.done, Reply.cidrs ["10.1.1.0/24"]]
            emptyStatus)).2).2.awsvpc.Status = ⟨"vpc-1", "subnet-1", "Updated", ""⟩ ∧
      (reconcilePass scriptedEC2
        (reconcilePass scriptedEC2
          (scriptedWorld [Reply.id "vpc-1", Reply.done, Reply.id "subnet-1",
            Reply.cidrs ["10.1.0.0/16"], Reply.done, Reply.cidrs ["10.1.1.0/24"]]
            emptyStatus)).2).2.awsvpc.Status
        ≠ (reconcilePass scriptedEC2
          (scriptedWorld [Reply.id "vpc-1", Reply.done, Reply.id "subnet-1",
            Reply.cidrs ["10.1.0.0/16"], Reply.done, Reply.cidrs ["10.1.1.0/24"]]
            emptyStatus)).2.awsvpc.Status) ∧
    ((reconcilePass scriptedEC2
        (scriptedWorld [Reply.id "", Reply.done, Reply.id "subnet-1",
          Reply.id "", Reply.done, Reply.id "subnet-2"]
          emptyStatus)).2.awsvpc.Status = ⟨"", "subnet-1", "Created", ""⟩ ∧
      (reconcilePass scriptedEC2
        (reconcilePass scriptedEC2
          (scriptedWorld [Reply.id "", Reply.done, Reply.id "subnet-1",
            Reply.id "", Reply.done, Reply.id "subnet-2"]
            emptyStatus)).2).2.awsvpc.Status = ⟨"", "subnet-2", "Created", ""⟩) := by
  decide

/-- C8 (amended): over a cloud in which every call succeeds, `CreateVpc` returns
a non-empty id and the describes return the CIDRs the resources were created with,
a pass from the empty status followed by a pass on the resulting status leaves,
after the second pass, the same `VPCID`, `SubnetID` and (empty) `ErrorMessage` as
after the first; the state is `Created` after the first pass and `Updated` after
the second, and the second pass issues no creating or deleting call. -/
theorem second_pass_keeps_ids (svc : EC2 σ) (w : World σ)
    (vpcId subnetId vpcCidr subnetCidr : String) (rest rest' : List String)
    (c1 c2 c3 c4 c5 c6 : σ)
    (hst : w.awsvpc.Status = emptyStatus)
    (hv : svc.CreateVpc w.cloud w.awsvpc.Spec.CIDRBlock = (Except.ok vpcId, c1))
    (ht : svc.CreateTags c1 vpcId "Name" w.awsvpc.Spec.Name = (none, c2))
    (hs : svc.CreateSubnet c2 vpcId w.awsvpc.Spec.SubnetCIDR = (Except.ok subnetId, c3))
    (hid : vpcId ≠ "")
    (hd : svc.DescribeVpcs c3 vpcId = (Except.ok (vpcCidr :: rest), c4))
    (heq : vpcCidr = w.awsvpc.Spec.CIDRBlock)
    (ht' : svc.CreateTags c4 vpcId "Name" w.awsvpc.Spec.Name = (none, c5))
    (hd' : svc.DescribeSubnets c5 subnetId = (Except.ok (subnetCidr :: rest'), c6))
    (heq' : subnetCidr = w.awsvpc.Spec.SubnetCIDR) :
    (reconcilePass svc w).1 = Result.ok ∧
    (reconcilePass svc w).2.awsvpc.Status = ⟨vpcId, subnetId, "Created", ""⟩ ∧
    (reconcilePass svc (reconcilePass svc w).2).1 = Result.ok ∧
    (reconcilePass svc (reconcilePass svc w).2).2.awsvpc.Status
      = ⟨vpcId, subnetId, "Updated", ""⟩ ∧
    (issued (reconcilePass svc w).2
      (reconcilePass svc (reconcilePass svc w).2).2).filter Call.createsOrDeletes = [] := by
  have hempty : w.awsvpc.Status.VPCID = "" := by rw [hst]; rfl
  have hmsg : w.awsvpc.Status.ErrorMessage = "" := by rw [hst]; rfl
  have h1 : reconcilePass svc w =
      (Result.ok,
        ⟨c3, w.calls ++ [Call.CreateVpc w.awsvpc.Spec.CIDRBlock,
            Call.CreateTags vpcId "Name" w.awsvpc.Spec.Name,
            Call.CreateSubnet vpcId w.awsvpc.Spec.SubnetCIDR],
          ⟨w.awsvpc.Spec, ⟨vpcId, subnetId, "Created", ""⟩⟩⟩) := by
    rw [reconcilePass, if_pos hempty, createVPC_succeeds svc w vpcId subnetId c1 c2 c3 hv ht hs,
      hmsg]
  rw [h1]
  have h2 := updateVPC_in_sync svc
    ⟨c3, w.calls ++ [Call.CreateVpc w.awsvpc.Spec.CIDRBlock,
        Call.CreateTags vpcId "Name" w.awsvpc.Spec.Name,
        Call.CreateSubnet vpcId w.awsvpc.Spec.SubnetCIDR],
      ⟨w.awsvpc.Spec, ⟨vpcId, subnetId, "Created", ""⟩⟩⟩
    vpcCidr subnetCidr rest rest' c4 c5 c6 hd heq ht' hd' heq'
  simp only [] at h2 ⊢
  rw [reconcilePass, if_neg (by simpa using hid), h2]
  simp [issued, Call.createsOrDeletes]

/-- Witness of the amended C8 on the scripted service. -/
theorem second_pass_keeps_ids_witness :
    (reconcilePass scriptedEC2
      (reconcilePass scriptedEC2
        (scriptedWorld [Reply.id "vpc-1", Reply.done, Reply.id "subnet-1",
          Reply.cidrs ["10.1.0.0/16"], Reply.done, Reply.cidrs ["10.1.1.0/24"]]
          emptyStatus)).2).2.awsvpc.Status = ⟨"vpc-1", "subnet-1", "Updated", ""⟩ :=
  (second_pass_keeps_ids scriptedEC2
    (scriptedWorld [Reply.id "vpc-1", Reply.done, Reply.id "subnet-1",
      Reply.cidrs ["10.1.0.0/16"], Reply.done, Reply.cidrs ["10.1.1.0/24"]] emptyStatus)
    "vpc-1" "subnet-1" "10.1.0.0/16" "10.1.1.0/24" [] []
    [Reply.done, Reply.id "subnet-1", Reply.cidrs ["10.1.0.0/16"], Reply.done,
      Reply.cidrs ["10.1.1.0/24"]]
    [Reply.id "subnet-1", Reply.cidrs ["10.1.0.0/16"], Reply.done, Reply.cidrs ["10.1.1.0/24"]]
    [Reply.cidrs ["10.1.0.0/16"], Reply.done, Reply.cidrs ["10.1.1.0/24"]]
    [Reply.done, Reply.cidrs ["10.1.1.0/24"]] [Reply.cidrs ["10.1.1.0/24"]] []
    rfl rfl rfl rfl (by decide) rfl (by decide) rfl rfl (by decide)).2.2.2.1

/-- C10: when `Get` and `NewSession` succeed, `Reconcile` calls `Status().Update`
exactly when the create or update path returned no error. If the path returns an
error, `Reconcile` returns that error, issues no status write and leaves the store
as it was. If the path returns no error, `Reconcile` issues one write, of the object
the path left; the store after the pass is the store `Status().Update` produced
from the store before and that object, and `Reconcile` returns what
`Status().Update` returned. -/
theorem status_written_iff_path_succeeds {κ : Type} (r : AWSVPCReconciler κ σ)
    (k : Cluster κ σ) (awsvpc : AWSVPC) (svc : EC2 σ)
    (hget : r.Get k.store = Except.ok awsvpc)
    (hsess : r.NewSession awsvpc.Spec.Region = Except.ok svc) :
    (statusWrites k (Reconcile r k).2 ≠ [] ↔
      (reconcilePass svc ⟨k.cloud, k.calls, awsvpc⟩).1 = Result.ok) ∧
    (∀ err, (reconcilePass svc ⟨k.cloud, k.calls, awsvpc⟩).1 = Result.err err →
      (Reconcile r k).1 = Result.err err ∧
      statusWrites k (Reconcile r k).2 = [] ∧
      (Reconcile r k).2.store = k.store) ∧
    ((reconcilePass svc ⟨k.cloud, k.calls, awsvpc⟩).1 = Result.ok →
      statusWrites k (Reconcile r k).2
        = [(reconcilePass svc ⟨k.cloud, k.calls, awsvpc⟩).2.awsvpc] ∧
      (Reconcile r k).2.store
        = (r.StatusUpdate k.store (reconcilePass svc ⟨k.cloud, k.calls, awsvpc⟩).2.awsvpc).2 ∧
      (Reconcile r k).1
        = (match (r.StatusUpdate k.store
              (reconcilePass svc ⟨k.cloud, k.calls, awsvpc⟩).2.awsvpc).1 with
          | some err => Result.err err
          | none => Result.ok)) ∧
    ((reconcilePass svc ⟨k.cloud, k.calls, awsvpc⟩).1 ≠ Result.ok →
      statusWrites k (Reconcile r k).2 = [] ∧ (Reconcile r k).2.store = k.store) := by
  rcases hp : reconcilePass svc ⟨k.cloud, k.calls, awsvpc⟩ with ⟨res, w'⟩
  cases res with
  | ok =>
    rw [Reconcile_path_succeeds svc r k awsvpc w' hget hsess hp]
    simp [statusWrites]
  | err e =>
    rw [Reconcile_path_fails svc r k awsvpc e w' hget hsess hp]
    simp [statusWrites]
  | panic => simp [Reconcile, hget, hsess, hp, statusWrites]

/-- Witness of C10 on the one-object store. When `CreateVpc` returns `vpc-1` and
the tagging fails, `Reconcile` returns the error, writes nothing, and the stored
status is still the empty one. When every call succeeds, the stored status after
the pass is the one the create path left. -/
theorem status_written_iff_path_succeeds_witness :
    ((Reconcile memoryReconciler
        (scriptedCluster [Reply.id "vpc-1", Reply.fail boom] emptyStatus)).1 = Result.err boom ∧
      statusWrites (scriptedCluster [Reply.id "vpc-1", Reply.fail boom] emptyStatus)
        (Reconcile memoryReconciler
          (scriptedCluster [Reply.id "vpc-1", Reply.fail boom] emptyStatus)).2 = [] ∧
      (Reconcile memoryReconciler
        (scriptedCluster [Reply.id "vpc-1", Reply.fail boom] emptyStatus)).2.store
        = ⟨sampleSpec, emptyStatus⟩) ∧
    (Reconcile memoryReconciler
        (scriptedCluster [Reply.id "vpc-1", Reply.done, Reply.id "subnet-1"]
          emptyStatus)).2.store
      = ⟨sampleSpec, ⟨"vpc-1", "subnet-1", "Created", ""⟩⟩ :=
  ⟨(status_written_iff_path_succeeds memoryReconciler
      (scriptedCluster [Reply.id "vpc-1", Reply.fail boom] emptyStatus)
      ⟨sampleSpec, emptyStatus⟩ scriptedEC2 rfl rfl).2.1 boom (by decide),
    ((status_written_iff_path_succeeds memoryReconciler
      (scriptedCluster [Reply.id "vpc-1", Reply.done, Reply.id "subnet-1"] emptyStatus)
      ⟨sampleSpec, emptyStatus⟩ scriptedEC2 rfl rfl).2.2.1 (by decide)).2.1.trans (by decide)⟩

/-- C9 as stated fails, the cloud returning non-empty ids in both runs. From
the empty status (which satisfies the invariant) a `createVPC` pass whose tagging
fails leaves state `Created` with an empty `SubnetID`. From the status of an
earlier failed create, state `Error` with message `boom` (which satisfies the
invariant), a `createVPC` pass that succeeds leaves state `Created` with
`ErrorMessage` still `boom`. -/
theorem created_state_breaks_invariant :
    (StatusInvariant emptyStatus ∧
      (createVPC scriptedEC2
        (scriptedWorld [Reply.id "vpc-1", Reply.fail boom] emptyStatus)).2.awsvpc.Status
        = ⟨"vpc-1", "", "Created", ""⟩ ∧
      ¬ StatusInvariant (createVPC scriptedEC2
        (scriptedWorld [Reply.id "vpc-1", Reply.fail boom] emptyStatus)).2.awsvpc.Status) ∧
    (StatusInvariant ⟨"", "", "Error", "boom"⟩ ∧
      (createVPC scriptedEC2
        (scriptedWorld [Reply.id "vpc-1", Reply.done, Reply.id "subnet-1"]
          ⟨"", "", "Error", "boom"⟩)).1 = Result.ok ∧
      (createVPC scriptedEC2
        (scriptedWorld [Reply.id "vpc-1", Reply.done, Reply.id "subnet-1"]
          ⟨"", "", "Error", "boom"⟩)).2.awsvpc.Status
        = ⟨"vpc-1", "subnet-1", "Created", "boom"⟩ ∧
      ¬ StatusInvariant (createVPC scriptedEC2
        (scriptedWorld [Reply.id "vpc-1", Reply.done, Reply.id "subnet-1"]
          ⟨"", "", "Error", "boom"⟩)).2.awsvpc.Status) := by
  decide

/-- C9 (amended): for a pass (`createVPC`, `updateVPC`, or the one `Reconcile`
picks), whether it succeeds or not, started from a status that satisfies the
invariant and has an empty `ErrorMessage`, with the cloud returning non-empty ids:
if the state left is `Created` then `VPCID` is non-empty and `ErrorMessage` is
empty, and `SubnetID` is non-empty too when the pass returned no error. -/
theorem created_state_sound_after_pass (svc : EC2 σ) (w : World σ)
    (hids : ReturnsIds svc)
    (hinv : StatusInvariant w.awsvpc.Status)
    (hmsg : w.awsvpc.Status.ErrorMessage = "") :
    CreatedSound (createVPC svc w).1 (createVPC svc w).2.awsvpc.Status ∧
    CreatedSound (updateVPC svc w).1 (updateVPC svc w).2.awsvpc.Status ∧
    CreatedSound (reconcilePass svc w).1 (reconcilePass svc w).2.awsvpc.Status ∧
    ((reconcilePass svc w).1 = Result.ok →
      StatusInvariant (reconcilePass svc w).2.awsvpc.Status) := by
  have hc := createVPC_createdSound svc w hids hmsg
  have hu := updateVPC_createdSound svc w hids hinv hmsg
  have hp : CreatedSound (reconcilePass svc w).1 (reconcilePass svc w).2.awsvpc.Status := by
    unfold reconcilePass
    split
    · exact hc
    · exact hu
  refine ⟨hc, hu, hp, ?_⟩
  intro hok hcreated
  exact ⟨(hp hcreated).1, (hp hcreated).2.2 hok, (hp hcreated).2.1⟩

/-- Witness of the amended C9: a pass from the empty status over the service in
which every call succeeds leaves a status that satisfies the invariant. -/
theorem created_state_sound_after_pass_witness :
    StatusInvariant (reconcilePass steadyEC2 ⟨(), [], ⟨sampleSpec, emptyStatus⟩⟩).2.awsvpc.Status :=
  (created_state_sound_after_pass steadyEC2 ⟨(), [], ⟨sampleSpec, emptyStatus⟩⟩
    steadyEC2_returnsIds (by decide) rfl).2.2.2 (by decide)

end Claims

end AwsVpcOperator
